import Mathlib

/-
Verification of the Soroban-Registry repository against its specification.

Part 1 models the multisig approval engine.  The engine itself
(src/cli/src/multisig.rs) is not present under src/; only its CLI entry
points (src/cli/src/main.rs, MultisigCommands) are.  Its definitions are
therefore modelled from the spec, sections 3, 4.1-4.5 and 7, and each such
definition is marked accordingly.

Part 2 embeds the backend handlers get_contract_graph and list_contracts
(src/backend/api/src/handlers.rs) and the CLI migrate command
(src/cli/src/commands.rs), which are present in the source.
-/

namespace SorobanRegistry

/-- Closed set of Stellar networks (spec section 3; shared models). -/
inductive Network where
  | mainnet
  | testnet
  | futurenet
deriving DecidableEq, Repr

/-- Modelled from the spec: the proposal lifecycle states of the multisig
engine (spec section 3, `status`). -/
inductive Status where
  | pending
  | approved
  | executed
  | expired
  | rejected
deriving DecidableEq, Repr

/-- Modelled from the spec: the error taxonomy of the approval engine
(spec section 7). -/
inductive MsError where
  | notFound
  | invalidPolicy
  | unauthorized
  | duplicateSignature
  | expired
  | terminal
  | notApproved
  | alreadyExecuted
  | invalidNetwork
deriving DecidableEq, Repr

/-- Modelled from the spec: a multisig policy record (spec sections 3 and 4.1;
src/cli/src/multisig.rs is not under src/). -/
structure Policy where
  name : String
  threshold : Nat
  signers : List String
  defaultExpiry : Nat
  createdBy : String
deriving DecidableEq, Repr

/-- Modelled from the spec: a recorded signature (spec section 3). -/
structure Signature where
  signer : String
  signatureData : Option String
  signedAt : Nat
deriving DecidableEq, Repr

/-- Modelled from the spec: a deployment proposal (spec section 3). -/
structure Proposal where
  contractName : String
  contractId : String
  wasmHash : String
  network : Network
  proposer : String
  status : Status
  expiresAt : Nat
  signatures : List Signature
deriving DecidableEq, Repr

/-- Modelled from the spec: Executed, Expired and Rejected are the terminal
states (spec section 4.2). -/
def Status.isTerminal : Status → Bool
  | .executed => true
  | .expired => true
  | .rejected => true
  | _ => false

/-- Modelled from the spec: the Threshold Evaluator (spec section 4.5), the
count of recorded signatures whose signer belongs to the policy signer set
compared against the threshold. -/
def satisfied (pol : Policy) (sigs : List Signature) : Bool :=
  decide (pol.threshold ≤ (sigs.filter fun s => pol.signers.contains s.signer).length)

/-- Modelled from the spec: signature submission (spec section 4.3).  The
lazy expiry check of section 4.2 runs first: a non-terminal proposal whose
deadline has passed is forced to Expired and the call fails Expired.  Then
the terminal, authorization and duplicate checks, in the order of section
4.3; on success the signature is appended and the Threshold Evaluator is
re-run, promoting a Pending proposal to Approved.  Returns the updated
proposal together with the error, if any. -/
def sign (pol : Policy) (p : Proposal) (signer : String) (sigData : Option String)
    (now : Nat) : Proposal × Option MsError :=
  if p.status.isTerminal = false ∧ p.expiresAt ≤ now then
    ({ p with status := .expired }, some .expired)
  else if p.status.isTerminal then
    (p, some .terminal)
  else if pol.signers.contains signer = false then
    (p, some .unauthorized)
  else if p.signatures.any fun s => s.signer == signer then
    (p, some .duplicateSignature)
  else
    let sigs := p.signatures ++ [{ signer := signer, signatureData := sigData, signedAt := now }]
    let st := if p.status = .pending ∧ satisfied pol sigs then Status.approved else p.status
    ({ p with signatures := sigs, status := st }, none)

/-- Modelled from the spec: the Execution Gate (spec section 4.4).  The lazy
expiry check runs first; an already Expired proposal fails Expired, an
already Executed one fails AlreadyExecuted (section 4.4 step 6 and the
idempotence property of section 8), anything not Approved fails NotApproved,
and an Approved proposal is flipped to Executed. -/
def execute (p : Proposal) (now : Nat) : Proposal × Option MsError :=
  if p.status.isTerminal = false ∧ p.expiresAt ≤ now then
    ({ p with status := .expired }, some .expired)
  else if p.status = .expired then
    (p, some .expired)
  else if p.status = .executed then
    (p, some .alreadyExecuted)
  else if p.status = .approved then
    ({ p with status := .executed }, none)
  else
    (p, some .notApproved)

/-- Modelled from the spec: createPolicy (spec section 4.1).  Fails with
InvalidPolicy when the threshold is below one or above the signer count,
the signer list is empty, or some signer fails address validation; the
address validator is a parameter.  The default expiry of 86400 seconds is
the CLI default (src/cli/src/main.rs, expiry_secs help text). -/
def createPolicy (validAddr : String → Bool) (name : String) (threshold : Nat)
    (signers : List String) (expirySecs : Option Nat) (createdBy : String) :
    Except MsError Policy :=
  if threshold < 1 ∨ signers.length < threshold ∨ signers = [] ∨
      signers.any (fun s => ! validAddr s) then
    .error .invalidPolicy
  else
    .ok { name := name, threshold := threshold, signers := signers,
          defaultExpiry := expirySecs.getD 86400, createdBy := createdBy }

/-- Concrete 1-of-1 policy used by witnesses and counterexamples. -/
def pol1 : Policy :=
  { name := "ops", threshold := 1, signers := ["A"], defaultExpiry := 86400,
    createdBy := "A" }

/-- Concrete 2-of-3 policy used by witnesses. -/
def pol2 : Policy :=
  { name := "ops2", threshold := 2, signers := ["A", "B", "C"], defaultExpiry := 86400,
    createdBy := "A" }

/-- Concrete pending proposal used by witnesses and counterexamples. -/
def pend1 : Proposal :=
  { contractName := "c", contractId := "CID", wasmHash := "h", network := .testnet,
    proposer := "A", status := .pending, expiresAt := 100, signatures := [] }

/-- C1: for a proposal in state Pending, a successful sign sets the status to
Approved exactly when the number of recorded signatures whose signer lies in
the policy signer set reaches the policy threshold, and leaves it Pending
below the threshold. -/
theorem c1_sign_threshold (pol : Policy) (p q : Proposal) (s : String)
    (d : Option String) (now : Nat) (hp : p.status = .pending)
    (hs : sign pol p s d now = (q, none)) :
    (q.status = .approved ↔
      pol.threshold ≤ (q.signatures.filter fun sg => pol.signers.contains sg.signer).length)
    ∧ (¬ pol.threshold ≤ (q.signatures.filter fun sg => pol.signers.contains sg.signer).length
        → q.status = .pending) := by
  unfold sign at hs
  split_ifs at hs with h1 h2 h3 h4
  · exact absurd hs (by simp)
  · exact absurd hs (by simp)
  · exact absurd hs (by simp)
  · exact absurd hs (by simp)
  · rw [Prod.mk.injEq] at hs
    obtain ⟨hq, -⟩ := hs
    subst hq
    simp only [satisfied, hp]
    by_cases hc : pol.threshold ≤
        ((p.signatures ++ [(⟨s, d, now⟩ : Signature)]).filter
          fun sg => pol.signers.contains sg.signer).length
    · simp [hc]
    · simp [hc, hp]

/-- Witness for C1 at a concrete input: policy pol1, proposal pend1, signer A. -/
theorem c1_sign_threshold_witness :
    ((sign pol1 pend1 "A" none 0).1.status = .approved ↔
      pol1.threshold ≤ ((sign pol1 pend1 "A" none 0).1.signatures.filter
        fun sg => pol1.signers.contains sg.signer).length)
    ∧ (¬ pol1.threshold ≤ ((sign pol1 pend1 "A" none 0).1.signatures.filter
        fun sg => pol1.signers.contains sg.signer).length
        → (sign pol1 pend1 "A" none 0).1.status = .pending) :=
  c1_sign_threshold pol1 pend1 (sign pol1 pend1 "A" none 0).1 "A" none 0 (by decide) (by decide)

/-- C2: a successful execute call starts from an Approved proposal and flips
it to Executed, and a second execute call on the result fails with
AlreadyExecuted and changes nothing, at any later time. -/
theorem c2_execute_idempotent (p q : Proposal) (now now2 : Nat)
    (h : execute p now = (q, none)) :
    p.status = .approved ∧ q.status = .executed ∧
    execute q now2 = (q, some .alreadyExecuted) := by
  unfold execute at h
  split_ifs at h with h1 h2 h3 h4
  · exact absurd h (by simp)
  · exact absurd h (by simp)
  · exact absurd h (by simp)
  · rw [Prod.mk.injEq] at h
    obtain ⟨hq, -⟩ := h
    subst hq
    refine ⟨h4, rfl, ?_⟩
    unfold execute
    simp [Status.isTerminal]
  · exact absurd h (by simp)

/-- Witness for C2 at a concrete input: pend1 set Approved, executed at time 0
and again at time 500. -/
theorem c2_execute_idempotent_witness :
    ({ pend1 with status := .approved } : Proposal).status = .approved ∧
    (execute { pend1 with status := .approved } 0).1.status = .executed ∧
    execute (execute { pend1 with status := .approved } 0).1 500 =
      ((execute { pend1 with status := .approved } 0).1, some .alreadyExecuted) :=
  c2_execute_idempotent { pend1 with status := .approved }
    (execute { pend1 with status := .approved } 0).1 0 500 (by decide)

/-- Concrete proposal already in the Expired state. -/
def prExp : Proposal := { pend1 with expiresAt := 10, status := .expired }

/-- C3 counterexample: on a proposal whose deadline has passed (10 ≤ 20) and
which is not Executed — it is already Expired — a sign call fails with
Terminal, not with Expired, refuting the claim that every such sign fails
with Expired. -/
theorem c3_counterexample :
    prExp.expiresAt ≤ 20 ∧ prExp.status ≠ .executed ∧
    (sign pol1 prExp "A" none 20).2 = some .terminal ∧
    (sign pol1 prExp "A" none 20).2 ≠ some .expired := by decide

/-- C3 amended: once now is at least expires_at and the proposal is not
Executed, no sign or execute call succeeds; while the status is still
non-terminal both fail with Expired, a sign on an already Expired or Rejected
proposal fails with Terminal, and an execute fails with Expired on an Expired
proposal and with NotApproved on a Rejected one. -/
theorem c3_expiry_dominance (pol : Policy) (p : Proposal) (s : String)
    (d : Option String) (now : Nat) (hexp : p.expiresAt ≤ now)
    (hne : p.status ≠ .executed) :
    ((sign pol p s d now).2.isSome ∧ (execute p now).2.isSome) ∧
    (p.status.isTerminal = false →
      (sign pol p s d now).2 = some .expired ∧ (execute p now).2 = some .expired) ∧
    (p.status = .expired →
      (sign pol p s d now).2 = some .terminal ∧ (execute p now).2 = some .expired) ∧
    (p.status = .rejected →
      (sign pol p s d now).2 = some .terminal ∧ (execute p now).2 = some .notApproved) := by
  obtain ⟨cn, ci, wh, nw, pr, st, ea, sg⟩ := p
  simp only at hexp hne
  cases st <;> simp_all [sign, execute, Status.isTerminal]

/-- Witness for C3 amended at a concrete input: pend1 signed and executed at
time 200, past its deadline of 100. -/
theorem c3_expiry_dominance_witness :
    (((sign pol1 pend1 "A" none 200).2.isSome ∧ (execute pend1 200).2.isSome) ∧
    (pend1.status.isTerminal = false →
      (sign pol1 pend1 "A" none 200).2 = some .expired ∧
      (execute pend1 200).2 = some .expired) ∧
    (pend1.status = .expired →
      (sign pol1 pend1 "A" none 200).2 = some .terminal ∧
      (execute pend1 200).2 = some .expired) ∧
    (pend1.status = .rejected →
      (sign pol1 pend1 "A" none 200).2 = some .terminal ∧
      (execute pend1 200).2 = some .notApproved)) :=
  c3_expiry_dominance pol1 pend1 "A" none 200 (by decide) (by decide)

/-- C5: createPolicy fails with InvalidPolicy exactly when the threshold is
below one, the threshold exceeds the signer count, the signer list is empty,
or some signer fails address validation; and every policy it returns
satisfies 1 ≤ threshold ≤ number of signers, has a nonempty signer list and
only validated signers.  The model has no policy mutation operation, so these
bounds persist. -/
theorem c5_create_policy (validAddr : String → Bool) (name : String)
    (threshold : Nat) (signers : List String) (expirySecs : Option Nat)
    (createdBy : String) :
    (createPolicy validAddr name threshold signers expirySecs createdBy =
        .error .invalidPolicy ↔
      (threshold < 1 ∨ signers.length < threshold ∨ signers = [] ∨
        ∃ s ∈ signers, validAddr s = false)) ∧
    (∀ pol, createPolicy validAddr name threshold signers expirySecs createdBy = .ok pol →
      1 ≤ pol.threshold ∧ pol.threshold ≤ pol.signers.length ∧ pol.signers ≠ [] ∧
      ∀ s ∈ pol.signers, validAddr s = true) := by
  unfold createPolicy
  constructor
  · split_ifs with h
    · simp only [true_iff]
      rcases h with h | h | h | h
      · exact Or.inl h
      · exact Or.inr (Or.inl h)
      · exact Or.inr (Or.inr (Or.inl h))
      · refine Or.inr (Or.inr (Or.inr ?_))
        rw [List.any_eq_true] at h
        obtain ⟨s, hsmem, hsv⟩ := h
        exact ⟨s, hsmem, by simpa using hsv⟩
    · simp only [reduceCtorEq, false_iff]
      push_neg at h ⊢
      obtain ⟨h1, h2, h3, h4⟩ := h
      refine ⟨h1, h2, h3, fun s hsmem => ?_⟩
      have h5 : (signers.any fun t => ! validAddr t) = false := by
        cases hb : signers.any fun t => ! validAddr t
        · rfl
        · exact absurd hb h4
      rw [List.any_eq_false] at h5
      simpa using h5 s hsmem
  · intro pol hpol
    split_ifs at hpol with h
    rw [Except.ok.injEq] at hpol
    subst hpol
    push_neg at h
    obtain ⟨h1, h2, h3, h4⟩ := h
    have h5 : (signers.any fun t => ! validAddr t) = false := by
      cases hb : signers.any fun t => ! validAddr t
      · rfl
      · exact absurd hb h4
    rw [List.any_eq_false] at h5
    exact ⟨h1, h2, h3, fun s hsmem => by simpa using h5 s hsmem⟩

/-- Witness for C5: a closed instance of the universally quantified statement
at a concrete validator and argument list. -/
theorem c5_create_policy_witness :
    (createPolicy (fun s => s.length == 1) "ops" 2 ["A", "B", "C"] none "A" =
        .error .invalidPolicy ↔
      (2 < 1 ∨ (["A", "B", "C"] : List String).length < 2 ∨ (["A", "B", "C"] : List String) = [] ∨
        ∃ s ∈ (["A", "B", "C"] : List String), (fun t : String => t.length == 1) s = false)) ∧
    (∀ pol, createPolicy (fun s => s.length == 1) "ops" 2 ["A", "B", "C"] none "A" = .ok pol →
      1 ≤ pol.threshold ∧ pol.threshold ≤ pol.signers.length ∧ pol.signers ≠ [] ∧
      ∀ s ∈ pol.signers, (fun t : String => t.length == 1) s = true) :=
  c5_create_policy (fun s => s.length == 1) "ops" 2 ["A", "B", "C"] none "A"

/-- C6: on a non-terminal, non-expired proposal all of whose recorded signers
are policy signers, a sign call by an already recorded signer fails with
DuplicateSignature and leaves the proposal unchanged, so the signature count
and the status are unchanged. -/
theorem c6_duplicate_signature (pol : Policy) (p : Proposal) (s : String)
    (d : Option String) (now : Nat) (hterm : p.status.isTerminal = false)
    (hexp : now < p.expiresAt)
    (hinv : ∀ sg ∈ p.signatures, pol.signers.contains sg.signer = true)
    (hrec : ∃ sg ∈ p.signatures, sg.signer = s) :
    sign pol p s d now = (p, some .duplicateSignature) := by
  obtain ⟨sg, hsgmem, hsgs⟩ := hrec
  have hauth : pol.signers.contains s = true := hsgs ▸ hinv sg hsgmem
  have hdup : (p.signatures.any fun t => t.signer == s) = true := by
    rw [List.any_eq_true]
    exact ⟨sg, hsgmem, by simp [hsgs]⟩
  unfold sign
  rw [if_neg (by rintro ⟨-, hle⟩; omega), if_neg (by simp [hterm]),
    if_neg (by rw [hauth]; simp), if_pos hdup]

/-- Witness for C6 at a concrete input: pend1 already signed by A, signed by A
again at time 1. -/
theorem c6_duplicate_signature_witness :
    sign pol1 { pend1 with signatures := [⟨"A", none, 0⟩] } "A" none 1 =
      ({ pend1 with signatures := [⟨"A", none, 0⟩] }, some .duplicateSignature) :=
  c6_duplicate_signature pol1 { pend1 with signatures := [⟨"A", none, 0⟩] } "A" none 1
    (by decide) (by decide) (by decide) ⟨⟨"A", none, 0⟩, by decide, rfl⟩

/-- C7: on a non-terminal, non-expired proposal, a sign call whose signer is
not in the policy signer set fails with Unauthorized and leaves the proposal
unchanged, so no signature is recorded and the status is unchanged. -/
theorem c7_unauthorized (pol : Policy) (p : Proposal) (s : String)
    (d : Option String) (now : Nat) (hterm : p.status.isTerminal = false)
    (hexp : now < p.expiresAt) (hauth : pol.signers.contains s = false) :
    sign pol p s d now = (p, some .unauthorized) := by
  unfold sign
  rw [if_neg (by rintro ⟨-, hle⟩; omega), if_neg (by simp [hterm]), if_pos hauth]

/-- Witness for C7 at a concrete input: pend1 signed by D, who is not a
pol1 signer, at time 1. -/
theorem c7_unauthorized_witness :
    sign pol1 pend1 "D" none 1 = (pend1, some .unauthorized) :=
  c7_unauthorized pol1 pend1 "D" none 1 (by decide) (by decide) (by decide)

/-- Modelled from the spec: the operations that can touch a proposal after
creation (spec section 3, lifecycle). -/
inductive MsOp where
  | sig (signer : String) (sigData : Option String) (now : Nat)
  | exe (now : Nat)
deriving DecidableEq, Repr

/-- State reached by one operation, keeping the post-state also when the
operation fails (a failed call may still have forced the Expired transition). -/
def applyOp (pol : Policy) (p : Proposal) : MsOp → Proposal
  | .sig s d now => (sign pol p s d now).1
  | .exe now => (execute p now).1

/-- Status sequence observed over a run: the initial status followed by every
status change, consecutive repeats collapsed (an observer records the status
each time it changes). -/
def statusTrace (pol : Policy) (p : Proposal) : List MsOp → List Status
  | [] => [p.status]
  | op :: ops =>
    if (applyOp pol p op).status = p.status then statusTrace pol (applyOp pol p op) ops
    else p.status :: statusTrace pol (applyOp pol p op) ops

/-- One engine operation never changes a proposal that is in a terminal
state. -/
theorem applyOp_terminal (pol : Policy) (p : Proposal) (op : MsOp)
    (h : p.status.isTerminal = true) : applyOp pol p op = p := by
  cases op with
  | sig s d now => simp [applyOp, sign, h]
  | exe now => cases hst : p.status <;> simp_all [applyOp, execute, Status.isTerminal]

/-- Case analysis of the status change produced by one operation: it is
unchanged, or Pending to Approved, or Approved to Executed, or a forced
expiry of a non-terminal proposal. -/
theorem applyOp_status_cases (pol : Policy) (p : Proposal) (op : MsOp) :
    (applyOp pol p op).status = p.status ∨
    (p.status = .pending ∧ (applyOp pol p op).status = .approved) ∨
    (p.status = .approved ∧ (applyOp pol p op).status = .executed) ∨
    (p.status.isTerminal = false ∧ (applyOp pol p op).status = .expired) := by
  cases op with
  | sig s d now =>
    simp only [applyOp, sign]
    split_ifs with h1 h2 h3 h4 h5
    · exact Or.inr (Or.inr (Or.inr ⟨h1.1, rfl⟩))
    · exact Or.inl rfl
    · exact Or.inl rfl
    · exact Or.inl rfl
    · exact Or.inr (Or.inl ⟨h5.1, rfl⟩)
    · exact Or.inl rfl
  | exe now =>
    simp only [applyOp, execute]
    split_ifs with h1 h2 h3 h4
    · exact Or.inr (Or.inr (Or.inr ⟨h1.1, rfl⟩))
    · exact Or.inl rfl
    · exact Or.inl rfl
    · exact Or.inr (Or.inr (Or.inl ⟨h4, rfl⟩))
    · exact Or.inl rfl

/-- Runs started in a terminal state observe only that state. -/
theorem statusTrace_terminal (pol : Policy) (ops : List MsOp) :
    ∀ p : Proposal, p.status.isTerminal = true → statusTrace pol p ops = [p.status] := by
  induction ops with
  | nil => intro p h; rfl
  | cons op ops ih =>
    intro p h
    rw [statusTrace, applyOp_terminal pol p op h, if_pos rfl]
    exact ih p h

/-- Runs started in the Approved state observe a subsequence of Approved,
Executed or of Approved, Expired. -/
theorem statusTrace_approved (pol : Policy) (ops : List MsOp) :
    ∀ p : Proposal, p.status = .approved →
    List.Sublist (statusTrace pol p ops) [Status.approved, .executed] ∨
    List.Sublist (statusTrace pol p ops) [Status.approved, .expired] := by
  induction ops with
  | nil =>
    intro p h
    rw [statusTrace, h]
    exact Or.inl (by simp)
  | cons op ops ih =>
    intro p h
    rw [statusTrace]
    rcases applyOp_status_cases pol p op with hc | ⟨hp, -⟩ | ⟨-, hc⟩ | ⟨-, hc⟩
    · rw [if_pos hc]
      exact ih (applyOp pol p op) (hc.trans h)
    · rw [h] at hp; cases hp
    · rw [if_neg (by rw [hc, h]; intro hcon; cases hcon)]
      rw [statusTrace_terminal pol ops (applyOp pol p op) (by rw [hc]; rfl), hc, h]
      exact Or.inl (List.Sublist.refl _)
    · rw [if_neg (by rw [hc, h]; intro hcon; cases hcon)]
      rw [statusTrace_terminal pol ops (applyOp pol p op) (by rw [hc]; rfl), hc, h]
      exact Or.inr (List.Sublist.refl _)

/-- C4 counterexample: with the 1-of-1 policy pol1, signing pend1 at time 10
and executing at time 200 (past the deadline 100) observes the status
sequence Pending, Approved, Expired, which is a subsequence neither of
Pending, Approved, Executed nor of Pending, Expired, refuting the claim as
stated. -/
theorem c4_counterexample :
    statusTrace pol1 pend1 [MsOp.sig "A" none 10, MsOp.exe 200] =
      [Status.pending, .approved, .expired] ∧
    ¬ List.Sublist [Status.pending, .approved, .expired]
        [Status.pending, .approved, .executed] ∧
    ¬ List.Sublist [Status.pending, .approved, .expired]
        [Status.pending, .expired] := by decide

/-- C4 amended: over any run of sign and execute operations, the observed
status sequence of a proposal created Pending is a subsequence of Pending,
Approved, Executed or of Pending, Approved, Expired (the chain Pending,
Expired of the original claim is a subsequence of the latter); in particular
the status never moves backward, and no operation changes a proposal in a
terminal state. -/
theorem c4_status_monotone (pol : Policy) (p : Proposal) (ops : List MsOp)
    (hp : p.status = .pending) :
    (List.Sublist (statusTrace pol p ops) [Status.pending, .approved, .executed] ∨
     List.Sublist (statusTrace pol p ops) [Status.pending, .approved, .expired]) ∧
    (∀ q : Proposal, ∀ op : MsOp, q.status.isTerminal = true → applyOp pol q op = q) := by
  refine ⟨?_, fun q op h => applyOp_terminal pol q op h⟩
  induction ops generalizing p with
  | nil =>
    rw [statusTrace, hp]
    exact Or.inl (by simp)
  | cons op ops ih =>
    rw [statusTrace]
    rcases applyOp_status_cases pol p op with hc | ⟨-, hc⟩ | ⟨ha, -⟩ | ⟨-, hc⟩
    · rw [if_pos hc]
      exact ih (applyOp pol p op) (hc.trans hp)
    · rw [if_neg (by rw [hc, hp]; intro hcon; cases hcon)]
      rcases statusTrace_approved pol ops (applyOp pol p op) hc with hsub | hsub
      · exact Or.inl (by rw [hp]; exact List.Sublist.cons₂ _ hsub)
      · exact Or.inr (by rw [hp]; exact List.Sublist.cons₂ _ hsub)
    · rw [hp] at ha; cases ha
    · rw [if_neg (by rw [hc, hp]; intro hcon; cases hcon)]
      rw [statusTrace_terminal pol ops (applyOp pol p op) (by rw [hc]; rfl), hc, hp]
      exact Or.inr (by simp)

/-- Witness for C4 amended at a concrete input: the run of the
counterexample, starting from the Pending proposal pend1. -/
theorem c4_status_monotone_witness :
    (List.Sublist (statusTrace pol1 pend1 [MsOp.sig "A" none 10, MsOp.exe 200])
        [Status.pending, .approved, .executed] ∨
     List.Sublist (statusTrace pol1 pend1 [MsOp.sig "A" none 10, MsOp.exe 200])
        [Status.pending, .approved, .expired]) ∧
    (∀ q : Proposal, ∀ op : MsOp, q.status.isTerminal = true → applyOp pol1 q op = q) :=
  c4_status_monotone pol1 pend1 [MsOp.sig "A" none 10, MsOp.exe 200] (by decide)

/-! Backend registry handlers, embedded from src/backend/api/src/handlers.rs.
Database uuids are modelled as naturals and the database tables as lists of
rows; a sqlx query is modelled by its effect on those lists. -/

/-- Row of the contracts table, with the columns the handlers read. -/
structure ContractRow where
  id : Nat
  contract_id : String
  name : String
  description : Option String
  network : Network
  is_verified : Bool
  category : Option String
  tags : List String
  created_at : Int
deriving DecidableEq, Repr

/-- Graph node returned by get_contract_graph (shared GraphNode). -/
structure GraphNode where
  id : Nat
  contract_id : String
  name : String
  network : Network
  is_verified : Bool
  category : Option String
  tags : List String
deriving DecidableEq, Repr

/-- Graph edge returned by get_contract_graph (shared GraphEdge). -/
structure GraphEdge where
  source : Nat
  target : Nat
  dependency_type : String
deriving DecidableEq, Repr

/-- Response of get_contract_graph (shared GraphResponse). -/
structure GraphResponse where
  nodes : List GraphNode
  edges : List GraphEdge
deriving DecidableEq, Repr

/-- Projection of a contracts row to a graph node, as in the SELECT of
get_contract_graph. -/
def ContractRow.toNode (c : ContractRow) : GraphNode :=
  { id := c.id, contract_id := c.contract_id, name := c.name, network := c.network,
    is_verified := c.is_verified, category := c.category, tags := c.tags }

/-- Embedding of get_contract_graph (handlers.rs lines 54-109): the nodes are
all contracts, or those of the requested network; the rows of the
contract_dependencies table are kept as edges only when both endpoints are
ids of selected nodes. -/
def get_contract_graph (contracts : List ContractRow)
    (dependencies : List (Nat × Nat × String)) (network : Option Network) :
    GraphResponse :=
  let nodes := match network with
    | some n => (contracts.filter fun c => c.network == n).map ContractRow.toNode
    | none => contracts.map ContractRow.toNode
  let nodeIds := nodes.map GraphNode.id
  let edges := (dependencies.filter fun e =>
      nodeIds.contains e.1 && nodeIds.contains e.2.1).map fun e =>
    { source := e.1, target := e.2.1, dependency_type := e.2.2 }
  { nodes := nodes, edges := edges }

/-- C8: every edge of a get_contract_graph response has its source and its
target equal to the id of some node of the same response, for every database
content and every network filter, including none. -/
theorem c8_graph_edges_closed (contracts : List ContractRow)
    (dependencies : List (Nat × Nat × String)) (network : Option Network)
    (e : GraphEdge)
    (he : e ∈ (get_contract_graph contracts dependencies network).edges) :
    (∃ n ∈ (get_contract_graph contracts dependencies network).nodes, n.id = e.source) ∧
    (∃ n ∈ (get_contract_graph contracts dependencies network).nodes, n.id = e.target) := by
  simp only [get_contract_graph, List.mem_map, List.mem_filter] at he
  obtain ⟨row, ⟨hmem, hcond⟩, hrow⟩ := he
  rw [Bool.and_eq_true] at hcond
  obtain ⟨hsrc, htgt⟩ := hcond
  rw [List.contains_eq_any_beq, List.any_eq_true] at hsrc htgt
  obtain ⟨i, himem, hieq⟩ := hsrc
  obtain ⟨j, hjmem, hjeq⟩ := htgt
  rw [List.mem_map] at himem hjmem
  obtain ⟨n1, hn1, hid1⟩ := himem
  obtain ⟨n2, hn2, hid2⟩ := hjmem
  subst hrow
  rw [beq_iff_eq] at hieq hjeq
  constructor
  · exact ⟨n1, hn1, by rw [hid1, hieq]⟩
  · exact ⟨n2, hn2, by rw [hid2, hjeq]⟩

/-- Concrete contracts table for the C8 witness. -/
def rowsW : List ContractRow :=
  [{ id := 1, contract_id := "CA", name := "a", description := none,
     network := .testnet, is_verified := true, category := none, tags := [],
     created_at := 5 },
   { id := 2, contract_id := "CB", name := "b", description := none,
     network := .mainnet, is_verified := false, category := none, tags := [],
     created_at := 9 }]

/-- Witness for C8 at a concrete input: two contracts, one dependency row
between them, no network filter. -/
theorem c8_graph_edges_closed_witness :
    (∃ n ∈ (get_contract_graph rowsW [(1, 2, "call")] none).nodes,
      n.id = ({ source := 1, target := 2, dependency_type := "call" } : GraphEdge).source) ∧
    (∃ n ∈ (get_contract_graph rowsW [(1, 2, "call")] none).nodes,
      n.id = ({ source := 1, target := 2, dependency_type := "call" } : GraphEdge).target) :=
  c8_graph_edges_closed rowsW [(1, 2, "call")] none
    { source := 1, target := 2, dependency_type := "call" } (by decide)

/-- Search parameters of list_contracts (shared ContractSearchParams, used by
handlers.rs lines 112-159). -/
structure ContractSearchParams where
  query : Option String
  verified_only : Option Bool
  category : Option String
  page : Option Nat
  page_size : Option Nat
deriving DecidableEq, Repr

/-- Paginated response of list_contracts (shared PaginatedResponse). -/
structure PaginatedResponse where
  items : List ContractRow
  total : Nat
  page : Nat
  page_size : Nat
deriving DecidableEq, Repr

/-- Character-list substring test used to model SQL ILIKE with the pattern
wrapped in percent signs. -/
def charsContain (needle : List Char) : List Char → Bool
  | [] => needle.isEmpty
  | c :: t => needle.isPrefixOf (c :: t) || charsContain needle t

/-- Case-insensitive substring test modelling ILIKE. -/
def ilikeContains (hay needle : String) : Bool :=
  charsContain needle.toLower.toList hay.toLower.toList

/-- Row filter of list_contracts: the WHERE clauses built from the query,
verified_only and category parameters (handlers.rs lines 124-144).  A NULL
description never matches the query clause, as in SQL. -/
def matchesParams (params : ContractSearchParams) (c : ContractRow) : Bool :=
  (match params.query with
   | none => true
   | some q => ilikeContains c.name q ||
       (match c.description with
        | some d => ilikeContains d q
        | none => false)) &&
  (match params.verified_only with
   | some true => c.is_verified
   | _ => true) &&
  (match params.category with
   | none => true
   | some cat => c.category == some cat)

/-- Ordering used by ORDER BY created_at DESC. -/
def createdDesc (a b : ContractRow) : Prop := b.created_at ≤ a.created_at

instance : DecidableRel createdDesc :=
  fun a b => inferInstanceAs (Decidable (b.created_at ≤ a.created_at))

instance : IsTotal ContractRow createdDesc :=
  ⟨fun a b => le_total b.created_at a.created_at⟩

instance : IsTrans ContractRow createdDesc :=
  ⟨fun _ _ _ h1 h2 => le_trans h2 h1⟩

/-- Embedding of list_contracts (handlers.rs lines 112-159): the effective
page is page.unwrap_or(1).max(1), the effective page size is
page_size.unwrap_or(20).min(100), the offset is (page - 1) * page_size, and
the items are the matching rows sorted by created_at descending, from that
offset, at most page_size of them. -/
def list_contracts (db : List ContractRow) (params : ContractSearchParams) :
    PaginatedResponse :=
  let page := max (params.page.getD 1) 1
  let page_size := min (params.page_size.getD 20) 100
  let offset := (page - 1) * page_size
  let filtered := db.filter (matchesParams params)
  let sorted := filtered.insertionSort createdDesc
  { items := (sorted.drop offset).take page_size,
    total := filtered.length, page := page, page_size := page_size }

/-- C9: for every database content and every input, the effective page of
list_contracts is at least 1 and defaults to 1, the effective page size is at
most 100 and defaults to 20, and the returned items are the matching rows in
created_at-descending order starting at offset (page - 1) * page_size. -/
theorem c9_list_contracts_pagination (db : List ContractRow)
    (params : ContractSearchParams) :
    1 ≤ (list_contracts db params).page ∧
    (list_contracts db params).page_size ≤ 100 ∧
    (params.page = none → (list_contracts db params).page = 1) ∧
    (params.page_size = none → (list_contracts db params).page_size = 20) ∧
    List.Pairwise createdDesc (list_contracts db params).items ∧
    (list_contracts db params).items =
      (((db.filter (matchesParams params)).insertionSort createdDesc).drop
        (((list_contracts db params).page - 1) * (list_contracts db params).page_size)).take
        (list_contracts db params).page_size := by
  refine ⟨le_max_right _ _, min_le_right _ _, ?_, ?_, ?_, rfl⟩
  · intro h
    simp [list_contracts, h]
  · intro h
    simp [list_contracts, h]
  · have hsorted : List.Pairwise createdDesc
        ((db.filter (matchesParams params)).insertionSort createdDesc) :=
      List.sorted_insertionSort createdDesc _
    have hsub : List.Sublist (list_contracts db params).items
        ((db.filter (matchesParams params)).insertionSort createdDesc) := by
      refine List.Sublist.trans (List.take_sublist _ _) (List.drop_sublist _ _)
    exact List.Pairwise.sublist hsub hsorted

/-- Witness for C9 at a concrete input: the two-row table rowsW with empty
search parameters. -/
theorem c9_list_contracts_pagination_witness :
    1 ≤ (list_contracts rowsW ⟨none, none, none, none, none⟩).page ∧
    (list_contracts rowsW ⟨none, none, none, none, none⟩).page_size ≤ 100 ∧
    ((⟨none, none, none, none, none⟩ : ContractSearchParams).page = none →
      (list_contracts rowsW ⟨none, none, none, none, none⟩).page = 1) ∧
    ((⟨none, none, none, none, none⟩ : ContractSearchParams).page_size = none →
      (list_contracts rowsW ⟨none, none, none, none, none⟩).page_size = 20) ∧
    List.Pairwise createdDesc (list_contracts rowsW ⟨none, none, none, none, none⟩).items ∧
    (list_contracts rowsW ⟨none, none, none, none, none⟩).items =
      (((rowsW.filter (matchesParams ⟨none, none, none, none, none⟩)).insertionSort
          createdDesc).drop
        (((list_contracts rowsW ⟨none, none, none, none, none⟩).page - 1) *
          (list_contracts rowsW ⟨none, none, none, none, none⟩).page_size)).take
        (list_contracts rowsW ⟨none, none, none, none, none⟩).page_size :=
  c9_list_contracts_pagination rowsW ⟨none, none, none, none, none⟩

/-! CLI migrate command, embedded from src/cli/src/commands.rs lines 218-337.
The outside world (filesystem, SHA-256, registry API, soroban binary) is an
explicit environment, and the observable actions of the command are recorded
as an ordered effect trace. -/

/-- Observable side effects of the migrate command. -/
inductive CliEffect where
  | readFile (path : String)
  | httpPost (url : String)
  | httpPut (url : String)
  | checkSoroban
deriving DecidableEq, Repr

/-- Migration status values written back to the registry (shared
models::MigrationStatus). -/
inductive MigrationStatus where
  | pending
  | success
  | failed
deriving DecidableEq, Repr

/-- Environment of one migrate invocation: the WASM file content if readable,
the SHA-256 hex digest function, and the registry API behaviour. -/
structure MigrateEnv where
  fileBytes : Option (List Nat)
  sha256hex : List Nat → String
  createOk : Bool
  migrationId : String
  sorobanInstalled : Bool

/-- Outcome of one migrate invocation: the ordered effect trace, whether the
command returned an error, the computed WASM hash, and the final status sent
to the registry, when one was sent. -/
structure MigrateResult where
  effects : List CliEffect
  failed : Bool
  wasmHash : Option String
  finalStatus : Option MigrationStatus
deriving DecidableEq, Repr

/-- True exactly on the HTTP effects. -/
def CliEffect.isHttp : CliEffect → Bool
  | .httpPost _ => true
  | .httpPut _ => true
  | _ => false

/-- Embedding of migrate (commands.rs lines 218-337): read the WASM file and
hash it; on dry_run return immediately; otherwise POST the migration record,
probe the soroban binary, mock the migration (failed when simulate_fail) and
PUT the final status. -/
def migrate (env : MigrateEnv) (api_url wasm_path : String)
    (simulate_fail dry_run : Bool) : MigrateResult :=
  match env.fileBytes with
  | none =>
    { effects := [.readFile wasm_path], failed := true, wasmHash := none,
      finalStatus := none }
  | some bytes =>
    let wasm_hash := env.sha256hex bytes
    if dry_run then
      { effects := [.readFile wasm_path], failed := false,
        wasmHash := some wasm_hash, finalStatus := none }
    else
      let eff0 := [CliEffect.readFile wasm_path,
        CliEffect.httpPost (api_url ++ "/api/migrations")]
      if env.createOk = false then
        { effects := eff0, failed := true, wasmHash := some wasm_hash,
          finalStatus := none }
      else
        let status := if simulate_fail then MigrationStatus.failed
          else MigrationStatus.success
        { effects := eff0 ++ [CliEffect.checkSoroban,
            CliEffect.httpPut (api_url ++ "/api/migrations/" ++ env.migrationId)],
          failed := false, wasmHash := some wasm_hash,
          finalStatus := some status }

/-- C10: with dry_run set, whenever the WASM file is readable, migrate
returns successfully, has read and hashed the file, and its effect trace
holds no HTTP effect at all, so no migration record is created and no stored
state changes; no final status is sent either. -/
theorem c10_migrate_dry_run (env : MigrateEnv) (api_url wasm_path : String)
    (simulate_fail : Bool) (bytes : List Nat)
    (hf : env.fileBytes = some bytes) :
    (migrate env api_url wasm_path simulate_fail true).failed = false ∧
    (migrate env api_url wasm_path simulate_fail true).wasmHash =
      some (env.sha256hex bytes) ∧
    (migrate env api_url wasm_path simulate_fail true).effects =
      [CliEffect.readFile wasm_path] ∧
    (∀ e ∈ (migrate env api_url wasm_path simulate_fail true).effects,
      e.isHttp = false) ∧
    (migrate env api_url wasm_path simulate_fail true).finalStatus = none := by
  simp [migrate, hf, CliEffect.isHttp]

/-- Concrete environment for the C10 witness. -/
def envW : MigrateEnv :=
  { fileBytes := some [0, 97, 115, 109], sha256hex := fun bs => toString bs.length,
    createOk := true, migrationId := "m1", sorobanInstalled := false }

/-- Witness for C10 at a concrete input: a readable four-byte WASM file,
migrated with dry_run set. -/
theorem c10_migrate_dry_run_witness :
    (migrate envW "http://localhost:3001" "a.wasm" false true).failed = false ∧
    (migrate envW "http://localhost:3001" "a.wasm" false true).wasmHash =
      some (envW.sha256hex [0, 97, 115, 109]) ∧
    (migrate envW "http://localhost:3001" "a.wasm" false true).effects =
      [CliEffect.readFile "a.wasm"] ∧
    (∀ e ∈ (migrate envW "http://localhost:3001" "a.wasm" false true).effects,
      e.isHttp = false) ∧
    (migrate envW "http://localhost:3001" "a.wasm" false true).finalStatus = none :=
  c10_migrate_dry_run envW "http://localhost:3001" "a.wasm" false [0, 97, 115, 109] rfl

end SorobanRegistry

